import Mathlib

/-!
Shallow embedding of src/Learning_NEURON.py.

The script builds five ball-and-stick cells placed on a circle, wires them
into a feed-forward ring of synapses, drives cell 0 with a NetStim, records
voltages and spike times, runs the engine once, and plots spike rasters.

The embedding has three layers:
* a structural layer over exact rationals (sections, synapses, net
  connections, recordings), mirroring the objects the script constructs;
* a geometric layer over the reals for cell positions and the rotate_z
  method (the script uses the engine's cos/sin/PI);
* a linear event trace mirroring the script's straight-line statement
  order, used for the temporal and frame claims.
-/

namespace LearningNeuron

/-- Unit constants from neuron.units: in NEURON's default unit system the
micron, millisecond and millivolt all have numeric value 1. -/
def um : ℚ := 1

/-- Millisecond unit, numerically 1. -/
def ms : ℚ := 1

/-- Millivolt unit, numerically 1. -/
def mV : ℚ := 1

/-- The two morphological sections a BallAndStick cell creates in
setup_morphology: a soma and a dendrite. -/
inductive SecKind
  | soma
  | dend
deriving DecidableEq, Repr

/-- Identity of a section: sections are created fresh inside
setup_morphology of the cell that owns them, so a section is identified by
its owning cell's id together with its kind. -/
structure SecRef where
  cell : ℕ
  kind : SecKind
deriving DecidableEq, Repr

/-- A segment reference: a section plus a normalized location on it, as in
the script's dend(0.5) and soma(0.5). -/
structure SegRef where
  sec : SecRef
  loc : ℚ
deriving DecidableEq, Repr

/-- Geometric dimensions of one section: length L and diameter diam, as
assigned by setup_morphology. -/
structure Sec where
  L : ℚ
  diam : ℚ
deriving DecidableEq, Repr

/-- The morphology a BallAndStick cell sets up: a soma section, a dendrite
section, and the parent the dendrite was connected to (dend.connect(soma)). -/
structure BallAndStickMorph where
  soma : Sec
  dend : Sec
  dendParent : Option SecKind
deriving DecidableEq, Repr

/-- BallAndStick.setup_morphology: creates soma and dend, connects dend to
soma, then sets soma.L = soma.diam = 12.6157 um, dend.L = 200 um,
dend.diam = 1 um.  Every cell runs this same method, so the resulting
morphology is one fixed record. -/
def setup_morphology : BallAndStickMorph :=
  { soma := { L := 12.6157 * um, diam := 12.6157 * um }
  , dend := { L := 200 * um, diam := 1 * um }
  , dendParent := some SecKind.soma }

/-- The sections owned by cell i, in the order of self.all =
self.soma.wholetree(): the soma followed by the dendrite.  Fresh sections
are created per cell, so the refs carry the cell id. -/
def cellSections (i : ℕ) : List SecRef :=
  [⟨i, SecKind.soma⟩, ⟨i, SecKind.dend⟩]

/-! ### Geometric layer (reals) -/

/-- One 3-D point of a section, as read and written through x3d, y3d, z3d,
diam3d and pt3dchange. -/
structure Pt3D where
  x : ℝ
  y : ℝ
  z : ℝ
  diam : ℝ

/-- The geometric state of a cell: its integer id, its stored x, y, z
position attributes, and the 3-D point lists of its sections (self.all). -/
structure CellGeom where
  id : ℕ
  x : ℝ
  y : ℝ
  z : ℝ
  all : List (List Pt3D)

/-- The per-point update performed by Cell.rotate_z: pt3dchange(i,
x*cos(theta) - y*sin(theta), x*sin(theta) + y*cos(theta), z3d(i),
diam3d(i)). -/
noncomputable def rotate_z_pt (theta : ℝ) (p : Pt3D) : Pt3D :=
  { x := p.x * Real.cos theta - p.y * Real.sin theta
  , y := p.x * Real.sin theta + p.y * Real.cos theta
  , z := p.z
  , diam := p.diam }

/-- Cell.rotate_z: applies the planar rotation to every 3-D point of every
section in self.all; the id and the stored x, y, z attributes are not
assigned. -/
noncomputable def CellGeom.rotate_z (c : CellGeom) (theta : ℝ) : CellGeom :=
  { c with all := c.all.map (List.map (rotate_z_pt theta)) }

/-- create_n_BallAndStick(n_cells, r): builds cell i with
theta = i * 2 * PI / n_cells at position (cos(theta)*r, sin(theta)*r, 0).
Cell.__init__ stores the id and position and then calls rotate_z(theta);
at that moment the sections carry no 3-D points yet (the engine's
define_shape, which generates them, runs afterwards), so the point lists
are empty. -/
noncomputable def create_n_BallAndStick (n_cells : ℕ) (r : ℝ) : List CellGeom :=
  (List.range n_cells).map (fun i : ℕ =>
    let theta : ℝ := (i : ℝ) * 2 * Real.pi / (n_cells : ℝ)
    CellGeom.rotate_z
      { id := i, x := Real.cos theta * r, y := Real.sin theta * r, z := 0
      , all := [[], []] } theta)

/-- my_cells = create_n_BallAndStick(5, 50). -/
noncomputable def my_cells : List CellGeom := create_n_BallAndStick 5 50

/-! ### Structural layer: stimulus, synapses, connections, recordings -/

/-- The source of a NetCon: either the NetStim spike generator or a cell's
membrane voltage at a segment (source.soma(0.5)._ref_v). -/
inductive NcSource
  | stim
  | cellV (seg : SegRef)
deriving DecidableEq, Repr

/-- An ExpSyn: attached to the segment it was constructed on. -/
structure ExpSyn where
  target : SegRef
deriving DecidableEq, Repr

/-- A NetCon with the parameter values the script leaves it with: its
source, the index (creation order, in allSyns) of the synapse it targets,
its weight[0] and its delay. -/
structure NetCon where
  src : NcSource
  syn : ℕ
  weight : ℚ
  delay : ℚ
deriving DecidableEq, Repr

/-- A NetStim with the parameters the script sets. -/
structure NetStim where
  number : ℚ
  start : ℚ
deriving DecidableEq, Repr

/-- stim = n.NetStim(); stim.number = 1; stim.start = 9 * ms. -/
def stim : NetStim := { number := 1, start := 9 * ms }

/-- syn_ = n.ExpSyn(my_cells[0].dend(0.5)). -/
def syn_ : ExpSyn := { target := ⟨⟨0, SecKind.dend⟩, 0.5⟩ }

/-- ncstim = n.NetCon(stim, syn_); ncstim.delay = 1 * ms;
ncstim.weight[0] = 0.04.  syn_ is the synapse created first, at index 0. -/
def ncstim : NetCon := { src := NcSource.stim, syn := 0, weight := 0.04, delay := 1 * ms }

/-- The pairing zip(my_cells, my_cells[1:] + [my_cells[0]]) of the ring
loop, on a list: each element paired with its successor, the last with the
first. -/
def ringPairsOf (cells : List ℕ) : List (ℕ × ℕ) :=
  cells.zip (cells.drop 1 ++ cells.take 1)

/-- The concrete source/target id pairs of the ring loop over the five
cells. -/
def ringPairs : List (ℕ × ℕ) := ringPairsOf (List.range 5)

/-- The body of the ring loop, iteration by iteration: for the k-th pair
(source, target) it creates syn = n.ExpSyn(target.dend(0.5)) and
netcon = n.NetCon(source.soma(0.5)._ref_v, syn, sec=source.soma) with
netcon.weight[0] = 0.05 and netcon.delay = 5.  The synapse created in
iteration k is the (k+1)-st synapse overall (syn_ was created before the
loop), hence the syn index k + 1. -/
def ringConns : List (ExpSyn × NetCon) :=
  ((List.range 5).zip ringPairs).map (fun kp =>
    ({ target := ⟨⟨kp.2.2, SecKind.dend⟩, 0.5⟩ }
    , { src := NcSource.cellV ⟨⟨kp.2.1, SecKind.soma⟩, 0.5⟩
      , syn := kp.1 + 1, weight := 0.05, delay := 5 }))

/-- syns: the list the ring loop appends its synapses to. -/
def syns : List ExpSyn := ringConns.map Prod.fst

/-- netcons: the list the ring loop appends its connections to. -/
def netcons : List NetCon := ringConns.map Prod.snd

/-- All ExpSyn objects the script ever creates, in creation order: syn_
first, then the five ring synapses. -/
def allSyns : List ExpSyn := syn_ :: syns

/-- All NetCon objects the script ever creates, in creation order: ncstim
first, then the five ring connections. -/
def allNetcons : List NetCon := ncstim :: netcons

/-- The cell a NetCon's source voltage belongs to, when the source is a
cell (none for the NetStim source). -/
def srcCellOf : NcSource → Option ℕ
  | NcSource.stim => none
  | NcSource.cellV seg => some seg.sec.cell

/-- Whether a NetCon's source is a cell's membrane voltage. -/
def hasCellSource (nc : NetCon) : Bool :=
  match nc.src with
  | NcSource.stim => false
  | NcSource.cellV _ => true

/-- The cell owning the synapse at index si of allSyns. -/
def synOwner (si : ℕ) : Option ℕ :=
  (allSyns[si]?).map (fun s => s.target.sec.cell)

/-- The (source cell, target cell) pair of a connection, defined when the
source is a cell and the target synapse index is valid. -/
def connCells (nc : NetCon) : Option (ℕ × ℕ) :=
  match srcCellOf nc.src, synOwner nc.syn with
  | some s, some t => some (s, t)
  | _, _ => none

/-! ### Recordings -/

/-- What a Vector records: a segment's membrane voltage (_ref_v), the
global time (n._ref_t), a synapse's current (_ref_i), or the spike times
of a NetCon (nc.record). -/
inductive RecTarget
  | segV (seg : SegRef)
  | time
  | synCurrent (syn : ℕ)
  | spikes (nc : ℕ)
deriving DecidableEq, Repr

/-- recording_cell = my_cells[0]; in the id-based structural layer this is
cell 0. -/
def recording_cell : ℕ := 0

/-- v_vec records recording_cell.soma(0.5)._ref_v. -/
def v_vec : RecTarget := RecTarget.segV ⟨⟨recording_cell, SecKind.soma⟩, 0.5⟩

/-- t_vec records n._ref_t. -/
def t_vec : RecTarget := RecTarget.time

/-- d_vec records recording_cell.dend(0.5)._ref_v. -/
def d_vec : RecTarget := RecTarget.segV ⟨⟨recording_cell, SecKind.dend⟩, 0.5⟩

/-- syn_i records syn_._ref_i; syn_ is synapse index 0. -/
def syn_i : RecTarget := RecTarget.synCurrent 0

/-- spike_times = [n.Vector() for nc in netcons]: the buffer ids of the
spike vectors, in creation order after the four vectors above
(v_vec = 0, t_vec = 1, d_vec = 2, syn_i = 3). -/
def spike_times : List ℕ := (List.range netcons.length).map (fun k => 4 + k)

/-- The pairing of the loop for nc, spike_t_vec in zip(netcons,
spike_times): (index of the NetCon in allNetcons, buffer id it records
into). -/
def spikeBindings : List (ℕ × ℕ) :=
  ((List.range netcons.length).map (fun k => k + 1)).zip spike_times

/-! ### Event trace

The script is straight-line code; its observable effects are modelled as a
concrete list of events in statement order.  Objects are referred to by
their creation index (synapse i, NetCon i, buffer i). -/

/-- One observable step of the script. -/
inductive Ev
  | createCell (id : ℕ)
  | createStim
  | createSyn (idx : ℕ) (onCell : ℕ)
  | setStimParam
  | createNetCon (idx : ℕ) (src : NcSource) (syn : ℕ)
  | setNcDelay (idx : ℕ) (d : ℚ)
  | setNcWeight (idx : ℕ) (w : ℚ)
  | setSynTau (idx : ℕ) (tau : ℚ)
  | createVec (buf : ℕ)
  | bindRecord (buf : ℕ) (tgt : RecTarget)
  | finitialize
  | continuerun
  | readBuffer (buf : ℕ)
deriving DecidableEq, Repr

/-- The script's statements, in program order: cell construction (line 81),
stimulus and its synapse and connection (88 to 96), the four recording
vectors (100 to 103), the ring loop (105 to 113), the spike vectors and
their bindings (115 to 117), initialization and the single run (119 to
120), and the raster plot, which reads each spike vector (123 to 124). -/
def scriptTrace : List Ev :=
  ((List.range 5).map Ev.createCell)
  ++ [Ev.createStim, Ev.createSyn 0 0, Ev.setStimParam, Ev.setStimParam,
      Ev.createNetCon 0 NcSource.stim 0,
      Ev.setNcDelay 0 (1 * ms), Ev.setNcWeight 0 0.04, Ev.setSynTau 0 (2 * ms),
      Ev.createVec 0, Ev.bindRecord 0 v_vec,
      Ev.createVec 1, Ev.bindRecord 1 t_vec,
      Ev.createVec 2, Ev.bindRecord 2 d_vec,
      Ev.createVec 3, Ev.bindRecord 3 syn_i]
  ++ (((List.range 5).zip ringPairs).flatMap (fun kp =>
      [Ev.createSyn (kp.1 + 1) kp.2.2,
       Ev.createNetCon (kp.1 + 1) (NcSource.cellV ⟨⟨kp.2.1, SecKind.soma⟩, 0.5⟩) (kp.1 + 1),
       Ev.setNcWeight (kp.1 + 1) 0.05,
       Ev.setNcDelay (kp.1 + 1) 5]))
  ++ ((List.range 5).map (fun k => Ev.createVec (4 + k)))
  ++ ((List.range 5).map (fun k => Ev.bindRecord (4 + k) (RecTarget.spikes (k + 1))))
  ++ [Ev.finitialize, Ev.continuerun]
  ++ ((List.range 5).map (fun k => Ev.readBuffer (4 + k)))

/-- Whether an event creates an object (cell, stimulus, synapse,
connection or vector). -/
def isCreate : Ev → Bool
  | Ev.createCell _ => true
  | Ev.createStim => true
  | Ev.createSyn _ _ => true
  | Ev.createNetCon _ _ _ => true
  | Ev.createVec _ => true
  | _ => false

/-- Whether an event mutates an already-created object (a connection's
weight or delay, a synapse's time constant, or a stimulus parameter).
The script has no statement that removes an element from a list or
destroys a cell, so no such event constructor exists. -/
def isMutate : Ev → Bool
  | Ev.setStimParam => true
  | Ev.setNcDelay _ _ => true
  | Ev.setNcWeight _ _ => true
  | Ev.setSynTau _ _ => true
  | _ => false

/-- Whether an event binds a recording buffer to a state variable. -/
def isBind : Ev → Bool
  | Ev.bindRecord _ _ => true
  | _ => false

/-- Whether an event reads a recording buffer (the plot loop's
spike_t_vec.as_numpy()). -/
def isRead : Ev → Bool
  | Ev.readBuffer _ => true
  | _ => false

/-- The trace up to but not including the first finitialize: the setup
phase. -/
def setupPhase : List Ev := scriptTrace.takeWhile (fun e => !(e == Ev.finitialize))

/-- The trace from the first finitialize on: the run-and-plot phase. -/
def runPhase : List Ev := scriptTrace.dropWhile (fun e => !(e == Ev.finitialize))

/-- The trace strictly before the single continuerun call. -/
def preRun : List Ev := scriptTrace.takeWhile (fun e => !(e == Ev.continuerun))

/-- The trace strictly after the single continuerun call. -/
def postRun : List Ev := (scriptTrace.dropWhile (fun e => !(e == Ev.continuerun))).drop 1

/-- The owner cell of the synapse with index si according to the createSyn
events of a trace prefix. -/
def synOwnerIn (l : List Ev) (si : ℕ) : Option ℕ :=
  (l.filterMap (fun e => match e with
    | Ev.createSyn i c => if i = si then some c else none
    | _ => none)).head?

/-- Well-formedness of one createNetCon event given the trace prefix
before it: the target synapse exists and its owner cell was already
created; if the source is a cell's membrane voltage, that source cell was
already created and differs from the target cell. -/
def createNetConOk (pre : List Ev) (src : NcSource) (si : ℕ) : Bool :=
  match synOwnerIn pre si with
  | none => false
  | some t =>
    pre.contains (Ev.createCell t) &&
    (match srcCellOf src with
     | none => true
     | some s => (s != t) && pre.contains (Ev.createCell s))

/-- Every connection-creating event of a trace is well formed with respect
to the prefix before it. -/
def connectionsWellFormed (tr : List Ev) : Bool :=
  (List.range tr.length).all (fun j =>
    match tr[j]? with
    | some (Ev.createNetCon _ src si) => createNetConOk (tr.take j) src si
    | _ => true)

/-- Whether an event creates a NetCon. -/
def isCreateNetCon : Ev → Bool
  | Ev.createNetCon _ _ _ => true
  | _ => false

/-- The trace position of the creation of cell c. -/
def cellCreatedAt (c : ℕ) : Option ℕ :=
  scriptTrace.findIdx? (fun e => e == Ev.createCell c)

/-- The trace position of the creation of the NetCon with index k. -/
def ncCreatedAt (k : ℕ) : Option ℕ :=
  scriptTrace.findIdx? (fun e => match e with
    | Ev.createNetCon i _ _ => i == k
    | _ => false)

/-- Claim C5 as stated: every connection created by the script has a
source cell and a target cell, distinct, and both cells were created, at
trace positions strictly before the connection's creation. -/
def c5AsStated : Prop :=
  ∀ k nc, allNetcons[k]? = some nc →
    ∃ s t js jt jc, connCells nc = some (s, t) ∧ s ≠ t ∧
      cellCreatedAt s = some js ∧ cellCreatedAt t = some jt ∧
      ncCreatedAt k = some jc ∧ js < jc ∧ jt < jc

/-- The (buffer, target) pairs of the bindRecord events of the trace, in
order. -/
def bindPairs : List (ℕ × RecTarget) :=
  scriptTrace.filterMap (fun e => match e with
    | Ev.bindRecord b tgt => some (b, tgt)
    | _ => none)

end LearningNeuron

/-! ## Claim theorems -/

namespace LearningNeuron

/-- Claim C1 — The connection-building step wires the cells into a
feed-forward ring: for every i in 0..4 it creates exactly one synapse on
cell ((i+1) mod 5)'s dendrite at location 0.5, and exactly one connection
whose source is cell i's soma membrane voltage at 0.5 and whose target is
that synapse (the synapse with index i+1 in creation order), and the
script creates no other connection whose source is a cell. -/
theorem ring_wiring :
    syns = (List.range 5).map (fun i =>
      ({ target := ⟨⟨(i + 1) % 5, SecKind.dend⟩, 0.5⟩ } : ExpSyn)) ∧
    netcons = (List.range 5).map (fun i =>
      ({ src := NcSource.cellV ⟨⟨i, SecKind.soma⟩, 0.5⟩, syn := i + 1,
         weight := 0.05, delay := 5 } : NetCon)) ∧
    netcons.map (fun nc => allSyns[nc.syn]?) = syns.map some ∧
    allNetcons.filter hasCellSource = netcons :=
  ⟨rfl, rfl, rfl, rfl⟩

/-- Claim C2 — Every cell has exactly the two sections soma and dendrite,
with the dendrite connected to the soma; the soma's length equals its
diameter, 12.6157 um, the dendrite is 200 um long and 1 um thick, and no
section is shared between two distinct cells. -/
theorem morphology_per_cell :
    ((List.range 5).all (fun i => (cellSections i).length == 2)) = true ∧
    setup_morphology.dendParent = some SecKind.soma ∧
    setup_morphology.soma.L = setup_morphology.soma.diam ∧
    setup_morphology.soma.L = 12.6157 * um ∧
    setup_morphology.soma.L = 12.6157 ∧
    setup_morphology.dend.L = 200 * um ∧
    setup_morphology.dend.diam = 1 * um ∧
    ((List.range 5).all (fun i => (List.range 5).all (fun j =>
      (i == j) || (cellSections i).all (fun s => !((cellSections j).contains s))))) = true :=
  ⟨by decide, rfl, rfl, rfl, by norm_num [setup_morphology, um], rfl, rfl, by decide⟩

/-- Claim C3 — Exactly one external stimulus object is created; it feeds
exactly one connection, whose synapse is syn_, the synapse at index 0,
attached to cell 0's dendrite at its midpoint 0.5; and cell 0 is the only
cell whose synapse is driven by a non-cell source. -/
theorem single_stimulus :
    scriptTrace.count Ev.createStim = 1 ∧
    allNetcons.filter (fun nc => !(hasCellSource nc)) = [ncstim] ∧
    ncstim.syn = 0 ∧
    allSyns[0]? = some syn_ ∧
    syn_.target = ⟨⟨0, SecKind.dend⟩, 0.5⟩ ∧
    (allNetcons.filter (fun nc => !(hasCellSource nc))).filterMap
      (fun nc => synOwner nc.syn) = [0] :=
  ⟨rfl, rfl, rfl, rfl, rfl, rfl⟩

/-- Claim C4 — create_n_BallAndStick(n_cells, r) returns exactly n_cells
cells whose ids are 0, 1, ..., n_cells-1 in order, cell i being placed at
(r * cos(theta_i), r * sin(theta_i), 0) with theta_i = i * 2 * pi /
n_cells. -/
theorem create_n_BallAndStick_spec (n : ℕ) (r : ℝ) (i : ℕ) :
    (create_n_BallAndStick n r).length = n ∧
    ((create_n_BallAndStick n r)[i]?).map (fun c => (c.id, c.x, c.y, c.z)) =
      (if i < n then
        some (i, r * Real.cos ((i : ℝ) * 2 * Real.pi / (n : ℝ)),
          r * Real.sin ((i : ℝ) * 2 * Real.pi / (n : ℝ)), (0 : ℝ))
       else none) := by
  refine ⟨by simp [create_n_BallAndStick], ?_⟩
  by_cases h : i < n
  · simp [create_n_BallAndStick, CellGeom.rotate_z, List.getElem?_map,
      List.getElem?_range, h, mul_comm]
  · simp [create_n_BallAndStick, CellGeom.rotate_z, List.getElem?_map,
      List.getElem?_range, h]
    omega

/-- Claim C5 (counterexample) — The claim fails as stated: the very first
connection the script creates, ncstim, has the NetStim as its source, not
a cell, so it has no source cell at all. -/
theorem not_all_connections_cell_sourced : ¬ c5AsStated := by
  intro h
  obtain ⟨s, t, js, jt, jc, hct, -⟩ := h 0 ncstim rfl
  exact Option.noConfusion hct

/-- Claim C5 (amended) — Every connection the script creates targets a
synapse that exists and whose owner cell was created earlier in the trace;
every connection whose source is a cell's membrane voltage (the five ring
connections) moreover has its source cell created earlier and distinct
from its target cell.  All six connection creations are checked. -/
theorem connections_reference_existing_cells :
    connectionsWellFormed scriptTrace = true ∧
    (scriptTrace.filter isCreateNetCon).length = 6 :=
  ⟨rfl, rfl⟩

/-- Claim C6 — After setup ends (from the first finitialize on), the
script creates nothing and mutates nothing: the run phase consists of
exactly the initialization, the single run, and the five raster-plot
reads, so no connection's weight or delay is changed and no object is
created after setup; every creation event lies in the setup phase. -/
theorem setup_immutable_afterwards :
    runPhase.filter isMutate = [] ∧
    runPhase.filter isCreate = [] ∧
    runPhase = [Ev.finitialize, Ev.continuerun, Ev.readBuffer 4, Ev.readBuffer 5,
      Ev.readBuffer 6, Ev.readBuffer 7, Ev.readBuffer 8] ∧
    scriptTrace.filter isCreate = setupPhase.filter isCreate ∧
    scriptTrace.filter isMutate = setupPhase.filter isMutate :=
  ⟨rfl, rfl, rfl, rfl, rfl⟩

/-- Claim C7 — The script runs the integrator exactly once (one
continuerun, immediately preceded by finitialize); every recording-buffer
binding occurs before that run and every buffer read for plotting occurs
after it. -/
theorem single_run_recordings_ordered :
    scriptTrace.count Ev.continuerun = 1 ∧
    scriptTrace.count Ev.finitialize = 1 ∧
    preRun.getLast? = some Ev.finitialize ∧
    preRun.filter isBind = scriptTrace.filter isBind ∧
    preRun.filter isRead = [] ∧
    postRun.filter isRead = scriptTrace.filter isRead :=
  ⟨rfl, rfl, rfl, rfl, rfl, rfl⟩

/-- Claim C8 — rotate_z(theta) changes only the x and y coordinates of
each 3-D point: the z coordinate and the diameter pass through unchanged
and (x, y) is mapped by the planar rotation, while the cell's id and its
stored x, y, z attributes, and the number of sections, are untouched. -/
theorem rotate_z_spec (c : CellGeom) (theta : ℝ) (si pj : ℕ) :
    (c.rotate_z theta).id = c.id ∧
    (c.rotate_z theta).x = c.x ∧
    (c.rotate_z theta).y = c.y ∧
    (c.rotate_z theta).z = c.z ∧
    (c.rotate_z theta).all.length = c.all.length ∧
    ((c.rotate_z theta).all[si]?).bind (fun pts => pts[pj]?) =
      ((c.all[si]?).bind (fun pts => pts[pj]?)).map (fun p =>
        { x := p.x * Real.cos theta - p.y * Real.sin theta
        , y := p.x * Real.sin theta + p.y * Real.cos theta
        , z := p.z, diam := p.diam }) := by
  refine ⟨rfl, rfl, rfl, rfl, by simp [CellGeom.rotate_z], ?_⟩
  rcases h : c.all[si]? with - | pts
  · simp [CellGeom.rotate_z, List.getElem?_map, h]
  · rcases h2 : pts[pj]? with - | p
    · simp [CellGeom.rotate_z, List.getElem?_map, h, h2]
    · simp [CellGeom.rotate_z, rotate_z_pt, List.getElem?_map, h, h2]

/-- Claim C9 — The stimulated cell and the recorded cell coincide: the
cell at position 0 of my_cells has id recording_cell = 0, the stimulus
synapse syn_ sits on that cell's dendrite, and the first three voltage
recordings are bound to that same cell's soma and dendrite voltages
(buffers 0, 1, 2, 3 bound in order to v_vec, t_vec, d_vec, syn_i). -/
theorem stimulated_equals_recorded :
    (my_cells[0]?).map CellGeom.id = some recording_cell ∧
    syn_.target.sec.cell = recording_cell ∧
    syn_.target = ⟨⟨recording_cell, SecKind.dend⟩, 0.5⟩ ∧
    v_vec = RecTarget.segV ⟨⟨recording_cell, SecKind.soma⟩, 0.5⟩ ∧
    d_vec = RecTarget.segV ⟨⟨recording_cell, SecKind.dend⟩, 0.5⟩ ∧
    bindPairs.take 4 = [(0, v_vec), (1, t_vec), (2, d_vec), (3, syn_i)] :=
  ⟨rfl, rfl, rfl, rfl, rfl, rfl⟩

/-- Claim C10 — The ring construction yields equally long lists: five
synapses, five connections and five spike-time vectors for five cells;
every ring connection has weight 0.05 and delay 5; each cell is the
source of exactly one ring connection and the target (owner of the target
synapse) of exactly one; and the spike recording step pairs each of the
five ring connections with exactly one distinct buffer. -/
theorem ring_counts :
    my_cells.length = 5 ∧
    syns.length = 5 ∧
    netcons.length = 5 ∧
    spike_times.length = 5 ∧
    netcons.map NetCon.weight = List.replicate 5 0.05 ∧
    netcons.map NetCon.delay = List.replicate 5 5 ∧
    ((List.range 5).all (fun c =>
      (netcons.filterMap (fun nc => srcCellOf nc.src)).count c == 1)) = true ∧
    ((List.range 5).all (fun c =>
      (netcons.filterMap (fun nc => synOwner nc.syn)).count c == 1)) = true ∧
    spikeBindings.map Prod.fst = [1, 2, 3, 4, 5] ∧
    spikeBindings.map Prod.snd = spike_times ∧
    spikeBindings.length = netcons.length :=
  ⟨rfl, rfl, rfl, rfl, rfl, rfl, by decide, by decide, rfl, rfl, rfl⟩

end LearningNeuron
